import Mathlib

/-!
Verification of the washington_air_quality feed pipeline.

This file shallowly embeds the two Python modules that the claims are
about:

* `src/lambda_collect/lambda_function.py` — `fetch_rss_feed` (regex
  extraction of location / report date / AQI readings / agency /
  last-update from an entry's `summary_detail` HTML), `save_to_db`
  (per-record `INSERT ... ON CONFLICT (location, report_date) DO NOTHING`
  with per-record commit and per-record exception handling) and
  `lambda_handler` (one `try` around the whole URL loop).
* `src/lambda_deliver_data/app.py` — the percent-change helper
  `calculate_change` and the trend-direction classification of
  `lambda_get_air_quality_trend`.

Text is modelled as `List Char`; Python exceptions as `Except`;
the database table as a list of rows, with the `ON CONFLICT` arbiter
following PostgreSQL semantics (two NULL `report_date` values never
conflict: NULLs are distinct in a unique arbiter index).
External effects (feedparser, psycopg2 connectivity) are parameters:
the feed contents per URL and a per-record failure oracle.
-/

namespace WAQ

/-- Feed text is modelled as a list of characters. -/
abbrev Str := List Char

/-- The character class of Python's regex `\s` and of `str.strip()`
(ASCII whitespace; the feeds are ASCII). -/
def isPySpace (c : Char) : Bool :=
  c = ' ' || c = '\t' || c = '\n' || c = '\r' || c = '\x0b' || c = '\x0c'

/-- Python `str.strip()`: drop whitespace from both ends. -/
def pyStrip (s : Str) : Str :=
  ((s.dropWhile isPySpace).reverse.dropWhile isPySpace).reverse

/-- Python `str.split(sep)` for a one-character separator: the list of
chunks between occurrences of `sep` (always nonempty). -/
def pySplit (sep : Char) : Str → List Str
  | [] => [[]]
  | c :: rest =>
    if c = sep then [] :: pySplit sep rest
    else match pySplit sep rest with
      | [] => [[c]]
      | chunk :: chunks => (c :: chunk) :: chunks

/-- `entry['location'].split(',')[0].strip()` from `save_to_db`
(lambda_function.py line 135): the location key stored in the table. -/
def locKey (s : Str) : Str :=
  pyStrip ((pySplit ',' s).headD [])

/-- A `datetime.datetime` value as produced by `datetime.strptime`
(naive wall-clock time, no timezone). -/
structure PyDateTime where
  year : Nat
  month : Nat
  day : Nat
  hour : Nat
  minute : Nat
  second : Nat
  deriving DecidableEq, Repr

/-- One row of the `air_quality` table / one element of the `data` list
built by `fetch_rss_feed` (the dict of lines 71–81 of
lambda_function.py). -/
structure EntryData where
  title : Str
  link : Str
  location : Str
  report_date : Option PyDateTime
  pm25 : Option Nat
  pm10 : Option Nat
  ozone : Option Nat
  agency : Str
  last_update : Option PyDateTime
  deriving DecidableEq, Repr

/-- The normalisation applied by `save_to_db` when binding the INSERT
parameters: the stored `location` column is
`entry['location'].split(',')[0].strip()`; every other column is the
entry's field unchanged. -/
def normalize (e : EntryData) : EntryData :=
  { e with location := locKey e.location }

/-- The `ON CONFLICT (location, report_date)` arbiter: two rows conflict
when their locations are equal and their report dates are equal and
non-null.  (PostgreSQL unique-index arbiters treat NULLs as distinct,
so a NULL `report_date` never conflicts with anything.) -/
def rowConflict (a b : EntryData) : Bool :=
  a.location = b.location &&
    match a.report_date, b.report_date with
    | some d1, some d2 => d1 = d2
    | _, _ => false

/-- `INSERT ... ON CONFLICT (location, report_date) DO NOTHING` into the
table `db`: a no-op when some stored row conflicts with `r`, otherwise
`r` is appended. -/
def insertRow (db : List EntryData) (r : EntryData) : List EntryData :=
  if db.any (fun old => rowConflict old r) then db else db ++ [r]

/-- A log record emitted through `logger`. -/
inductive LogEvent where
  | insertFailed (e : EntryData)
  | processingUrl (u : Str)
  | runError
  deriving DecidableEq, Repr

/-- `save_to_db(data, conn)` (lambda_function.py lines 115–148).  Each
entry is inserted inside its own `try`, committed on success; an insert
failure (modelled by the oracle `fails`) is logged, rolled back and the
loop continues with the next entry.  Returns the table after the batch
together with the log. -/
def save_to_db (fails : EntryData → Bool) :
    List EntryData → List EntryData → List EntryData × List LogEvent
  | [], db => (db, [])
  | e :: rest, db =>
    if fails e then
      ((save_to_db fails rest db).1,
       LogEvent.insertFailed e :: (save_to_db fails rest db).2)
    else save_to_db fails rest (insertRow db (normalize e))

/-- Shorthand: the character list of a string literal. -/
def str (s : String) : Str := s.data

/-- The lazy group of `pre + r'\s*(.*?)' + post`: the text from the
current position up to the first occurrence of `post`.  `.` does not
match a newline (no DOTALL flag in the source), so an intervening
newline makes the group fail. -/
def captureUntil (post : Str) : Str → Option Str
  | [] => none
  | c :: rest =>
    if post.isPrefixOf (c :: rest) then some []
    else if c = '\n' then none
    else (captureUntil post rest).map (fun cap => c :: cap)

/-- `re.search(pre + r'\s*(.*?)' + post, s).group(1)` (or without the
`\s*` when `skipWs` is false, as in the Last-Update pattern): scan the
start positions left to right; at an occurrence of the literal `pre`,
greedily skip whitespace and capture lazily up to `post`; if the rest
of the pattern cannot match there, keep scanning. -/
def searchCap (pre post : Str) (skipWs : Bool) : Str → Option Str
  | [] => none
  | c :: rest =>
    match
      (if pre.isPrefixOf (c :: rest) then
        captureUntil post
          (if skipWs then ((c :: rest).drop pre.length).dropWhile isPySpace
           else (c :: rest).drop pre.length)
      else none) with
    | some cap => some cap
    | none => searchCap pre post skipWs rest

/-- `re.sub(r' [Pp][Dd][Tt]| [Pp][Ss][Tt]$', '', date_str)`
(lambda_function.py lines 52 and 58): delete every " PDT"
(case-insensitive) and a final " PST".  (Python's `$` would also match
just before a trailing newline; feed dates carry no trailing newline,
so end-of-string suffices here.) -/
def stripTz : Str → Str
  | a :: b :: c :: d :: rest =>
    if a = ' ' && b.toLower = 'p' && c.toLower = 'd' && d.toLower = 't' then
      stripTz rest
    else if a = ' ' && b.toLower = 'p' && c.toLower = 's' && d.toLower = 't'
        && rest.isEmpty then
      []
    else a :: stripTz (b :: c :: d :: rest)
  | s => s

/-- Numeric value of a decimal digit character. -/
def digitVal (c : Char) : Nat := c.toNat - '0'.toNat

/-- One or two decimal digits, as in CPython's `_strptime` regexes
(e.g. `%m` is `1[0-2]|0[1-9]|[1-9]`): a two-digit read is kept when
`accept2` holds of its value, otherwise the parse falls back to the
single first digit when `accept1` holds of it. -/
def parseNum2or1 (accept2 accept1 : Nat → Bool) : Str → Option (Nat × Str)
  | c1 :: c2 :: rest =>
    if c1.isDigit then
      if c2.isDigit then
        let v := 10 * digitVal c1 + digitVal c2
        if accept2 v then some (v, rest)
        else if accept1 (digitVal c1) then some (digitVal c1, c2 :: rest)
        else none
      else if accept1 (digitVal c1) then some (digitVal c1, c2 :: rest)
      else none
    else none
  | [c1] =>
    if c1.isDigit && accept1 (digitVal c1) then some (digitVal c1, [])
    else none
  | [] => none

/-- Exactly two digits (`%y`). -/
def parseY2 : Str → Option (Nat × Str)
  | c1 :: c2 :: rest =>
    if c1.isDigit && c2.isDigit then some (10 * digitVal c1 + digitVal c2, rest)
    else none
  | _ => none

/-- Exactly four digits (`%Y`). -/
def parseY4 : Str → Option (Nat × Str)
  | c1 :: c2 :: c3 :: c4 :: rest =>
    if c1.isDigit && c2.isDigit && c3.isDigit && c4.isDigit then
      some (1000 * digitVal c1 + 100 * digitVal c2 + 10 * digitVal c3 + digitVal c4, rest)
    else none
  | _ => none

/-- One expected literal character. -/
def expectChar (c : Char) : Str → Option Str
  | x :: rest => if x = c then some rest else none
  | [] => none

/-- `\s+` (a literal whitespace in a strptime format string). -/
def expectWs : Str → Option Str
  | c :: rest => if isPySpace c then some (rest.dropWhile isPySpace) else none
  | [] => none

/-- A case-insensitive literal (`_strptime` compiles its regex with
IGNORECASE); `lit` is given in lowercase. -/
def matchCI (lit : Str) (s : Str) : Option Str :=
  if (s.take lit.length).map Char.toLower = lit then some (s.drop lit.length)
  else none

/-- `%p`: `am` or `pm`, case-insensitive; `true` means PM. -/
def parseAmPm (s : Str) : Option (Bool × Str) :=
  match matchCI (str "am") s with
  | some r => some (false, r)
  | none =>
    match matchCI (str "pm") s with
    | some r => some (true, r)
    | none => none

/-- Abbreviated month names for `%b` (case-insensitive). -/
def monthNames : List (Str × Nat) :=
  [(str "jan", 1), (str "feb", 2), (str "mar", 3), (str "apr", 4),
   (str "may", 5), (str "jun", 6), (str "jul", 7), (str "aug", 8),
   (str "sep", 9), (str "oct", 10), (str "nov", 11), (str "dec", 12)]

/-- `%b`. -/
def parseMonthAbbr (s : Str) : Option (Nat × Str) :=
  monthNames.findSome? (fun p => (matchCI p.1 s).map (fun r => (p.2, r)))

/-- Abbreviated weekday names for `%a`; the parsed weekday is not used
by `strptime` beyond matching. -/
def weekdayNames : List Str :=
  [str "mon", str "tue", str "wed", str "thu", str "fri", str "sat", str "sun"]

/-- `%a`. -/
def parseWeekdayAbbr (s : Str) : Option Str :=
  weekdayNames.findSome? (fun n => matchCI n s)

/-- Gregorian leap year. -/
def isLeap (y : Nat) : Bool := y % 4 = 0 && (y % 100 ≠ 0 || y % 400 = 0)

/-- Days in a month, used by the `datetime` constructor's validation. -/
def daysInMonth (y m : Nat) : Nat :=
  if m = 2 then (if isLeap y then 29 else 28)
  else if m = 4 || m = 6 || m = 9 || m = 11 then 30
  else 31

/-- `datetime.strptime(s, '%m/%d/%y %I:%M %p')` (lambda_function.py
line 53), `none` standing for a raised `ValueError`.  The whole string
must be consumed; `%y` maps 00–68 to 2000–2068 and 69–99 to 1969–1999;
`%I` with `%p` gives `hour = I mod 12 + (12 if PM)`; the `datetime`
constructor then validates the day against the month. -/
def strptimeReport (s : Str) : Option PyDateTime := do
  let (m, s) ← parseNum2or1 (fun v => 1 ≤ v && v ≤ 12) (fun v => 1 ≤ v) s
  let s ← expectChar '/' s
  let (d, s) ← parseNum2or1 (fun v => 1 ≤ v && v ≤ 31) (fun v => 1 ≤ v) s
  let s ← expectChar '/' s
  let (y2, s) ← parseY2 s
  let year := if y2 ≤ 68 then 2000 + y2 else 1900 + y2
  let s ← expectWs s
  let (h12, s) ← parseNum2or1 (fun v => 1 ≤ v && v ≤ 12) (fun v => 1 ≤ v) s
  let s ← expectChar ':' s
  let (minute, s) ← parseNum2or1 (fun v => v ≤ 59) (fun _ => true) s
  let s ← expectWs s
  let (isPm, s) ← parseAmPm s
  if s.isEmpty && d ≤ daysInMonth year m then
    some { year, month := m, day := d,
           hour := h12 % 12 + (if isPm then 12 else 0), minute, second := 0 }
  else none

/-- `datetime.strptime(s, '%a, %d %b %Y %H:%M:%S')` (lambda_function.py
line 59), `none` standing for a raised `ValueError`. -/
def strptimeLastUpdate (s : Str) : Option PyDateTime := do
  let s ← parseWeekdayAbbr s
  let s ← expectChar ',' s
  let s ← expectWs s
  let (d, s) ← parseNum2or1 (fun v => 1 ≤ v && v ≤ 31) (fun v => 1 ≤ v) s
  let s ← expectWs s
  let (m, s) ← parseMonthAbbr s
  let s ← expectWs s
  let (year, s) ← parseY4 s
  let s ← expectWs s
  let (h, s) ← parseNum2or1 (fun v => v ≤ 23) (fun _ => true) s
  let s ← expectChar ':' s
  let (minute, s) ← parseNum2or1 (fun v => v ≤ 59) (fun _ => true) s
  let s ← expectChar ':' s
  let (sec, s) ← parseNum2or1 (fun v => v ≤ 61) (fun _ => true) s
  if s.isEmpty && d ≤ daysInMonth year m && sec ≤ 59 then
    some { year, month := m, day := d, hour := h, minute, second := sec }
  else none

/-- One tuple produced by
`re.findall(r'(Good|Moderate|Unhealthy for Sensitive Groups|Unhealthy|Very Unhealthy|Hazardous)\s*-\s*(\d+)\s*AQI\s*-\s*([^<]+)', html)`
(lambda_function.py line 40): the AQI category, the integer value, and
the pollutant description. -/
structure AqiMatch where
  category : Str
  aqi : Nat
  desc : Str
  deriving DecidableEq, Repr

/-- The category alternatives, in the pattern's order (the regex engine
tries them left to right at each start position). -/
def aqiCategories : List Str :=
  [str "Good", str "Moderate", str "Unhealthy for Sensitive Groups",
   str "Unhealthy", str "Very Unhealthy", str "Hazardous"]

/-- A case-sensitive literal. -/
def matchLit (lit : Str) (s : Str) : Option Str :=
  if lit.isPrefixOf s then some (s.drop lit.length) else none

/-- Value of a nonempty digit run. -/
def digitsToNat (ds : Str) : Nat := ds.foldl (fun a c => 10 * a + digitVal c) 0

/-- After a matched category: `\s*-\s*(\d+)\s*AQI\s*-\s*([^<]+)`.
Returns the AQI value and description groups and the remainder after
the whole match. -/
def parseAqiTail (s : Str) : Option ((Nat × Str) × Str) :=
  match expectChar '-' (s.dropWhile isPySpace) with
  | none => none
  | some s2 =>
    let s3 := s2.dropWhile isPySpace
    let ds := s3.takeWhile Char.isDigit
    if ds.isEmpty then none else
    match matchLit (str "AQI") ((s3.drop ds.length).dropWhile isPySpace) with
    | none => none
    | some s5 =>
      match expectChar '-' (s5.dropWhile isPySpace) with
      | none => none
      | some s7 =>
        let s8 := s7.dropWhile isPySpace
        let desc := s8.takeWhile (fun c => c ≠ '<')
        if desc.isEmpty then none
        else some ((digitsToNat ds, desc), s8.drop desc.length)

/-- Try a full pattern match starting exactly here, with the
alternation's left-to-right backtracking over category literals. -/
def parseAqiAt (s : Str) : Option (AqiMatch × Str) :=
  aqiCategories.findSome? (fun cat =>
    match matchLit cat s with
    | none => none
    | some rest =>
      match parseAqiTail rest with
      | none => none
      | some ((aqi, desc), after) => some ({ category := cat, aqi, desc }, after))

/-- `re.findall` scan: non-overlapping matches, left to right, resuming
after each match.  A successful match consumes at least the category
literal (≥ 4 characters), so the remainder is strictly shorter and fuel
`s.length` is never exhausted. -/
def findAqiAux : Nat → Str → List AqiMatch
  | 0, _ => []
  | _ + 1, [] => []
  | fuel + 1, c :: rest =>
    match parseAqiAt (c :: rest) with
    | some (m, after) => m :: findAqiAux fuel after
    | none => findAqiAux fuel rest

/-- All matches of the AQI pattern in `s`. -/
def findAqi (s : Str) : List AqiMatch := findAqiAux s.length s

/-- Python's `pat in s` substring test. -/
def containsSub (pat : Str) : Str → Bool
  | [] => pat.isEmpty
  | c :: rest => pat.isPrefixOf (c :: rest) || containsSub pat rest

/-- The substrings classifying a pollutant description
(lambda_function.py lines 64–69). -/
def sub25 : Str := str "2.5 microns"

/-- See `sub25`. -/
def sub10 : Str := str "10 microns"

/-- See `sub25`. -/
def subOzone : Str := str "Ozone"

/-- The body of the `for match in air_quality_matches` loop: an
`if/elif/elif` on substrings of the description, overwriting the
matching pollutant's current value. -/
def classifyStep (acc : Option Nat × Option Nat × Option Nat) (m : AqiMatch) :
    Option Nat × Option Nat × Option Nat :=
  if containsSub sub25 m.desc then (some m.aqi, acc.2.1, acc.2.2)
  else if containsSub sub10 m.desc then (acc.1, some m.aqi, acc.2.2)
  else if containsSub subOzone m.desc then (acc.1, acc.2.1, some m.aqi)
  else acc

/-- The whole loop, starting from the three `None` initialisations
(pm25, pm10, ozone).  The source's `if air_quality_matches:` guard is
redundant — the loop over an empty list is a no-op either way. -/
def classifyMatches (ms : List AqiMatch) : Option Nat × Option Nat × Option Nat :=
  ms.foldl classifyStep (none, none, none)

/-- A feedparser entry as consumed by `fetch_rss_feed`: `none` models a
missing key, and `summary_detail` holds `entry['summary_detail']['value']`
when the key is present. -/
structure RawEntry where
  title : Option Str
  link : Option Str
  summary : Option Str
  summary_detail : Option Str
  deriving DecidableEq, Repr

/-- A `ValueError` raised by one of the two `datetime.strptime` calls,
carrying the offending (already stripped) date string. -/
inductive ExtractErr where
  | badReportDate (s : Str)
  | badLastUpdate (s : Str)
  deriving DecidableEq, Repr

/-- Equality of `Except` results is decidable (used to evaluate the
extraction on concrete feeds). -/
instance {ε α : Type} [DecidableEq ε] [DecidableEq α] :
    DecidableEq (Except ε α) := fun a b =>
  match a, b with
  | .ok x, .ok y =>
    if h : x = y then isTrue (by rw [h]) else isFalse (by simp [h])
  | .error x, .error y =>
    if h : x = y then isTrue (by rw [h]) else isFalse (by simp [h])
  | .ok _, .error _ => isFalse (by simp)
  | .error _, .ok _ => isFalse (by simp)

/-- Lines 50–53: strip, drop the timezone marker, `strptime` — raising
on failure. -/
def reportDateOf : Option Str → Except ExtractErr (Option PyDateTime)
  | none => .ok none
  | some d =>
    let date_str := stripTz (pyStrip d)
    match strptimeReport date_str with
    | some dt => .ok (some dt)
    | none => .error (.badReportDate date_str)

/-- Lines 56–59, likewise. -/
def lastUpdateOf : Option Str → Except ExtractErr (Option PyDateTime)
  | none => .ok none
  | some d =>
    let s := stripTz (pyStrip d)
    match strptimeLastUpdate s with
    | some dt => .ok (some dt)
    | none => .error (.badLastUpdate s)

/-- The body of the `for entry in feed.entries` loop of
`fetch_rss_feed` (lambda_function.py lines 21–82): defaults, the six
regex searches, the unavailable early branch, and otherwise the field
extractions in source order (report date parsed before last update, so
a bad report date raises first). -/
def extractEntry (e : RawEntry) : Except ExtractErr EntryData :=
  let title := e.title.getD (str "No title")
  let link := e.link.getD (str "No link")
  match e.summary_detail with
  | none =>
    .ok { title, link, location := str "No location", report_date := none,
          pm25 := none, pm10 := none, ozone := none,
          agency := str "No agency", last_update := none }
  | some html =>
    let location_match := searchCap (str "<div><b>Location:</b>") (str "</div>") true html
    let date_match := searchCap (str "<b>Current Air Quality:</b>") (str "<br") true html
    let air_quality_matches := findAqi html
    let agency_match := searchCap (str "<div><b>Agency:</b>") (str "</div>") true html
    let last_update_match :=
      searchCap (str "<div><i>Last Update: ") (str "</i></div>") false html
    let unavailable_match :=
      searchCap (str "Current Air Quality unavailable for") (str "<br") true html
    match unavailable_match with
    | some loc =>
      .ok { title, link, location := loc, report_date := none,
            pm25 := none, pm10 := none, ozone := none,
            agency := str "No agency", last_update := none }
    | none =>
      let location := match location_match with
        | some l => pyStrip l
        | none => str "No location"
      match reportDateOf date_match with
      | .error err => .error err
      | .ok report_date =>
        let agency := match agency_match with
          | some a => pyStrip a
          | none => str "No agency"
        match lastUpdateOf last_update_match with
        | .error err => .error err
        | .ok last_update =>
          let (pm25, pm10, ozone) := classifyMatches air_quality_matches
          .ok { title, link, location, report_date, pm25, pm10, ozone,
                agency, last_update }

/-- `fetch_rss_feed` over the parsed feed's entry list.  There is no
`try` inside the loop: an exception raised while extracting one entry
propagates and discards the whole feed's `data` list. -/
def fetch_rss_feed : List RawEntry → Except ExtractErr (List EntryData)
  | [] => .ok []
  | e :: rest =>
    match extractEntry e with
    | .error err => .error err
    | .ok d =>
      match fetch_rss_feed rest with
      | .error err => .error err
      | .ok ds => .ok (d :: ds)

/-- The `for url in urls` loop of `lambda_handler` (lines 157–160),
run inside the handler's single `try`: an exception while processing
one URL stops the loop at once.  `feedOf` injects the parsed feed
contents per URL (the feedparser adapter), `fails` the per-record
store-failure oracle. -/
def urlLoop (feedOf : Str → List RawEntry) (fails : EntryData → Bool) :
    List Str → List EntryData → Except ExtractErr Unit × List EntryData × List LogEvent
  | [], db => (.ok (), db, [])
  | u :: rest, db =>
    match fetch_rss_feed (feedOf u) with
    | .error err => (.error err, db, [LogEvent.processingUrl u])
    | .ok data =>
      let (db2, logs) := save_to_db fails data db
      let (r, db3, logs2) := urlLoop feedOf fails rest db2
      (r, db3, LogEvent.processingUrl u :: logs ++ logs2)

/-- What `lambda_handler` returns, plus the table and log state. -/
structure HandlerResult where
  statusCode : Nat
  db : List EntryData
  logs : List LogEvent
  deriving DecidableEq, Repr

/-- `lambda_handler` (lambda_function.py lines 151–173): one `try`
around the whole URL loop; any exception is caught at top level, logged
and turned into a 500 response — records committed before the failure
remain stored, later URLs are never attempted. -/
def lambda_handler (feedOf : Str → List RawEntry) (fails : EntryData → Bool)
    (urls : List Str) (db : List EntryData) : HandlerResult :=
  match urlLoop feedOf fails urls db with
  | (.ok _, db2, logs) => { statusCode := 200, db := db2, logs }
  | (.error _, db2, logs) =>
    { statusCode := 500, db := db2, logs := logs ++ [LogEvent.runError] }

/-- Python truthiness of a nullable integer column value, as tested by
`if start and end:` in `calculate_change` (app.py lines 184–187):
`None` and `0` are falsy. -/
def truthy : Option Int → Bool
  | none => false
  | some n => !(n == 0)

/-- `round(x, 2)` on the exact rational value.  (CPython rounds the
nearest binary double half-to-even; the difference to exact half-up
rounding is confined to representation-dependent halfway cases that no
theorem below depends on.) -/
def roundTo2 (q : ℚ) : ℚ := (⌊q * 100 + 1 / 2⌋ : ℚ) / 100

/-- `calculate_change(start, end)` (app.py lines 184–187): the rounded
percent change when both endpoints are truthy, else `None`. -/
def calculate_change (start endv : Option Int) : Option ℚ :=
  if truthy start && truthy endv then
    some (roundTo2 (((endv.getD 0 : ℚ) - (start.getD 0 : ℚ)) / (start.getD 0 : ℚ) * 100))
  else none

/-- The row fetched by the trend query: the three pollutant values at
the window's earliest and latest report date (each nullable). -/
structure TrendRow where
  start_pm25 : Option Int
  end_pm25 : Option Int
  start_pm10 : Option Int
  end_pm10 : Option Int
  start_ozone : Option Int
  end_ozone : Option Int
  deriving DecidableEq, Repr

/-- The three `*_change` values of `trend_data` (app.py lines 189–195),
in dict insertion order pm25, pm10, ozone. -/
def trend_changes (r : TrendRow) : Option ℚ × Option ℚ × Option ℚ :=
  (calculate_change r.start_pm25 r.end_pm25,
   calculate_change r.start_pm10 r.end_pm10,
   calculate_change r.start_ozone r.end_ozone)

/-- The float-valued entries of `trend_data.values()`: the
`isinstance(change, float)` filter keeps exactly the non-`None` changes
(`location`/`timeframe` are strings). -/
def presentChanges (c : Option ℚ × Option ℚ × Option ℚ) : List ℚ :=
  [c.1, c.2.1, c.2.2].filterMap id

/-- The `trend_direction` classification (app.py lines 198–202):
`'improving' if all(... < 0 ...) else 'worsening' if all(... > 0 ...)
else 'mixed'`, each `all` ranging over the present changes. -/
def trend_direction (c : Option ℚ × Option ℚ × Option ℚ) : String :=
  if (presentChanges c).all (fun x => decide (x < 0)) then "improving"
  else if (presentChanges c).all (fun x => decide (0 < x)) then "worsening"
  else "mixed"

/-! ## Sample data used by witnesses and counterexamples -/

/-- A record with a null `report_date` (as produced, e.g., for a feed
entry without a parsable Current-Air-Quality line). -/
def rNull : EntryData :=
  { title := str "No title", link := str "No link",
    location := str "Springfield", report_date := none, pm25 := none,
    pm10 := none, ozone := none, agency := str "No agency",
    last_update := none }

/-- A record with a present `report_date`. -/
def rSome : EntryData :=
  { title := str "t", link := str "l", location := str "Springfield",
    report_date := some ⟨2024, 7, 15, 14, 30, 0⟩, pm25 := some 30,
    pm10 := none, ozone := none, agency := str "WA Ecology",
    last_update := none }

/-- A second record with the same key as `rSome` but a different
payload. -/
def rSome2 : EntryData :=
  { title := str "t2", link := str "l2", location := str "Springfield",
    report_date := some ⟨2024, 7, 15, 14, 30, 0⟩, pm25 := some 55,
    pm10 := some 12, ozone := none, agency := str "WA Ecology",
    last_update := none }

/-- A record marked so the store-failure oracle `failsTitled` rejects
it. -/
def rFail : EntryData :=
  { title := str "FAIL", link := str "l", location := str "Tacoma",
    report_date := some ⟨2024, 7, 16, 9, 0, 0⟩, pm25 := some 10,
    pm10 := none, ozone := none, agency := str "WA Ecology",
    last_update := none }

/-- A concrete store-failure oracle: the insert of a record titled
"FAIL" raises. -/
def failsTitled (e : EntryData) : Bool := e.title = str "FAIL"

/-- A feed entry whose Current-Air-Quality line is not a parsable
date. -/
def entryBadDate : RawEntry :=
  { title := some (str "t1"), link := some (str "l1"), summary := none,
    summary_detail := some (str "<div><b>Location:</b> Springfield, IL</div><div><b>Current Air Quality:</b> not a date<br/></div>") }

/-- A feed entry that extracts cleanly. -/
def entryGood : RawEntry :=
  { title := some (str "t2"), link := some (str "l2"), summary := none,
    summary_detail := some (str "<div><b>Location:</b> Spokane, WA</div><div><b>Current Air Quality:</b> 07/15/24 2:30 PM PDT<br/></div>Good - 30 AQI - Particles less than 2.5 microns<br/>") }

/-! ## Helper lemmas -/

/-- `str.split` never returns an empty list. -/
theorem pySplit_ne_nil (sep : Char) (s : Str) : pySplit sep s ≠ [] := by
  cases s with
  | nil => simp [pySplit]
  | cons c rest =>
    by_cases h : c = sep
    · simp [pySplit, h]
    · simp only [pySplit, if_neg h]
      cases pySplit sep rest <;> simp

/-- The first chunk of `str.split(sep)` is the text before the first
separator. -/
theorem pySplit_head (sep : Char) (s : Str) :
    (pySplit sep s).headD [] = s.takeWhile (fun c => c ≠ sep) := by
  induction s with
  | nil => rfl
  | cons c rest ih =>
    by_cases h : c = sep
    · simp [pySplit, List.takeWhile_cons, h]
    · simp only [pySplit, if_neg h, List.takeWhile_cons]
      have hne := pySplit_ne_nil sep rest
      cases hsp : pySplit sep rest with
      | nil => exact absurd hsp hne
      | cons chunk chunks =>
        rw [hsp] at ih
        simp only [List.headD_cons] at ih
        simp [h, ih]

/-- Unfolding of the conflict arbiter. -/
theorem rowConflict_iff (a b : EntryData) :
    rowConflict a b = true ↔
      a.location = b.location ∧
        ∃ d, a.report_date = some d ∧ b.report_date = some d := by
  unfold rowConflict
  cases ha : a.report_date with
  | none => simp [ha]
  | some d1 =>
    cases hb : b.report_date with
    | none => simp [ha, hb]
    | some d2 =>
      simp only [ha, hb, Bool.and_eq_true, decide_eq_true_eq,
        Option.some.injEq]
      constructor
      · rintro ⟨h1, h2⟩; exact ⟨h1, d1, rfl, h2.symm⟩
      · rintro ⟨h1, d, hd1, hd2⟩; exact ⟨h1, by rw [hd1, hd2]⟩

/-! ## C7 — location-key normalisation -/

/-- C7: `save_to_db` stores as location key the substring of the
location before the first comma with surrounding whitespace trimmed,
and passes every other field through unchanged; "Springfield, IL"
yields "Springfield", and a comma-free location yields the whole
trimmed location (e.g. "  Spokane  " yields "Spokane"). -/
theorem normalize_locationKey (e : EntryData) :
    (normalize e).location = pyStrip (e.location.takeWhile (fun c => c ≠ ','))
    ∧ (normalize e).title = e.title ∧ (normalize e).link = e.link
    ∧ (normalize e).report_date = e.report_date
    ∧ (normalize e).pm25 = e.pm25 ∧ (normalize e).pm10 = e.pm10
    ∧ (normalize e).ozone = e.ozone ∧ (normalize e).agency = e.agency
    ∧ (normalize e).last_update = e.last_update
    ∧ locKey (str "Springfield, IL") = str "Springfield"
    ∧ locKey (str "  Spokane  ") = str "Spokane" := by
  refine ⟨?_, rfl, rfl, rfl, rfl, rfl, rfl, rfl, rfl, by decide, by decide⟩
  show locKey e.location = _
  rw [locKey, pySplit_head]

/-! ## C1 — dedup-store idempotence -/

/-- C1 counterexample: with a null `reportTimestamp` the
`ON CONFLICT (location, report_date)` arbiter never fires (SQL NULLs
are pairwise distinct in a unique arbiter), so inserting the very same
record twice stores two rows — the claimed idempotence for *every*
record fails. -/
theorem upsert_null_timestamp_cex :
    (save_to_db (fun _ => false) [rNull, rNull] []).1
        = [normalize rNull, normalize rNull]
    ∧ (save_to_db (fun _ => false) [rNull, rNull] []).1.length = 2 := by
  exact ⟨by decide, by decide⟩

/-- C1 amended: for every record whose `reportTimestamp` is present,
the conditional insert is idempotent on (locationKey, reportTimestamp):
a second insert with the same key pair — even with a different payload
— is a no-op (not an update, not an error), and exactly one stored
record exists after both calls.  (With an absent timestamp the SQL
arbiter treats the keys as distinct and duplicates accumulate.) -/
theorem upsert_idempotent_present (db : List EntryData) (r1 r2 : EntryData)
    (hl : r1.location = r2.location) (hd : r1.report_date = r2.report_date)
    (hs : r1.report_date.isSome = true) :
    insertRow (insertRow db r1) r2 = insertRow db r1
    ∧ (insertRow (insertRow [] r1) r2).length = 1 := by
  obtain ⟨d, hrd⟩ := Option.isSome_iff_exists.mp hs
  have hrd2 : r2.report_date = some d := hd ▸ hrd
  have hconf : rowConflict r1 r2 = true :=
    (rowConflict_iff r1 r2).mpr ⟨hl, d, hrd, hrd2⟩
  have htrans : ∀ old : EntryData,
      rowConflict old r1 = true → rowConflict old r2 = true := by
    intro old h
    obtain ⟨h1, d', hd1, hd2⟩ := (rowConflict_iff old r1).mp h
    have hdd : d = d' := by
      rw [hrd] at hd2
      exact Option.some.inj hd2
    exact (rowConflict_iff old r2).mpr ⟨h1.trans hl, d', hd1, by rw [hrd2, hdd]⟩
  have main : ∀ db : List EntryData,
      insertRow (insertRow db r1) r2 = insertRow db r1 := by
    intro db
    by_cases hc : db.any (fun old => rowConflict old r1) = true
    · have hc2 : db.any (fun old => rowConflict old r2) = true := by
        rw [List.any_eq_true] at hc ⊢
        obtain ⟨old, hmem, h⟩ := hc
        exact ⟨old, hmem, htrans old h⟩
      simp [insertRow, hc, hc2]
    · have h1 : insertRow db r1 = db ++ [r1] := by simp [insertRow, hc]
      have hc2 : (db ++ [r1]).any (fun old => rowConflict old r2) = true := by
        simp [List.any_append, hconf]
      rw [h1]
      simp [insertRow, hc2]
  exact ⟨main db, by rw [main []]; simp [insertRow]⟩

/-- Witness: `upsert_idempotent_present` at two concrete records
sharing the key (Springfield, 2024-07-15 14:30) with different
payloads. -/
theorem upsert_idempotent_present_witness :
    insertRow (insertRow [] rSome) rSome2 = insertRow [] rSome
    ∧ (insertRow (insertRow [] rSome) rSome2).length = 1 :=
  upsert_idempotent_present [] rSome rSome2 (by decide) (by decide) (by decide)

/-! ## C2 — per-record commit isolation -/

/-- C2: each record of a batch is committed independently.  When record
`e` fails to insert, the batch's outcome is: the prefix `d1` is stored
exactly as before, the failure is logged, and every record of the
suffix `d2` is still attempted against the table the prefix produced —
nothing is rolled back and nothing after `e` is skipped. -/
theorem save_to_db_failure_isolated (fails : EntryData → Bool)
    (d1 d2 : List EntryData) (e : EntryData) (db : List EntryData)
    (h : fails e = true) :
    save_to_db fails (d1 ++ e :: d2) db =
      ((save_to_db fails d2 (save_to_db fails d1 db).1).1,
       (save_to_db fails d1 db).2
         ++ LogEvent.insertFailed e
            :: (save_to_db fails d2 (save_to_db fails d1 db).1).2) := by
  induction d1 generalizing db with
  | nil => simp [save_to_db, h]
  | cons a d1 ih =>
    by_cases ha : fails a = true
    · simp [save_to_db, ha, ih]
    · simp [save_to_db, ha, ih]

/-- Witness: a three-record batch whose middle record fails. -/
theorem save_to_db_failure_isolated_witness :
    save_to_db failsTitled [rSome, rFail, rNull] [] =
      ((save_to_db failsTitled [rNull] (save_to_db failsTitled [rSome] []).1).1,
       (save_to_db failsTitled [rSome] []).2
         ++ LogEvent.insertFailed rFail
            :: (save_to_db failsTitled [rNull]
                  (save_to_db failsTitled [rSome] []).1).2) :=
  save_to_db_failure_isolated failsTitled [rSome] [rNull] rFail [] (by decide)

/-! ## C3 — per-URL failure handling in the orchestrator -/

/-- Two configured sources: the first URL's feed has an entry whose
date line cannot be parsed, the second URL's feed is clean. -/
def feedTwo (u : Str) : List RawEntry :=
  if u = str "u1" then [entryBadDate] else [entryGood]

/-- C3 counterexample: a failure while processing the first URL is
*not* isolated — the handler's single try/except aborts the whole run
with status 500 and the second URL's (perfectly extractable) entry is
never stored: the final table is empty. -/
theorem handler_url_failure_cex :
    (lambda_handler feedTwo (fun _ => false) [str "u1", str "u2"] []).statusCode = 500
    ∧ (lambda_handler feedTwo (fun _ => false) [str "u1", str "u2"] []).db = [] := by
  exact ⟨by decide, by decide⟩

/-- C3 amended: a fetch/processing failure for one URL is caught only
by `lambda_handler`'s single top-level try/except: the run stops at
that URL, returns statusCode 500 and logs the error; records committed
before the failing URL remain stored (`db` is whatever had accumulated)
but the remaining URLs are never attempted. -/
theorem handler_fetch_error_aborts_run (feedOf : Str → List RawEntry)
    (fails : EntryData → Bool) (u : Str) (rest : List Str)
    (db : List EntryData) (err : ExtractErr)
    (h : fetch_rss_feed (feedOf u) = .error err) :
    lambda_handler feedOf fails (u :: rest) db =
      { statusCode := 500, db := db,
        logs := [LogEvent.processingUrl u, LogEvent.runError] } := by
  simp [lambda_handler, urlLoop, h]

/-- Witness: `handler_fetch_error_aborts_run` on the two-source
configuration. -/
theorem handler_fetch_error_aborts_run_witness :
    lambda_handler feedTwo (fun _ => false) [str "u1", str "u2"] [] =
      { statusCode := 500, db := [],
        logs := [LogEvent.processingUrl (str "u1"), LogEvent.runError] } :=
  handler_fetch_error_aborts_run feedTwo (fun _ => false) (str "u1")
    [str "u2"] [] (.badReportDate (str "not a date")) (by decide)

/-! ## C4 — unparsable dates -/

/-- C4 counterexample: with a feed [bad-date entry, good entry], the
`ValueError` from `strptime` propagates out of the *whole* entry loop:
`fetch_rss_feed` returns no entries at all, and nothing of the feed —
in particular not the good second entry — is stored. -/
theorem bad_date_aborts_feed_cex :
    fetch_rss_feed [entryBadDate, entryGood]
        = .error (.badReportDate (str "not a date"))
    ∧ (lambda_handler (fun _ => [entryBadDate, entryGood]) (fun _ => false)
        [str "u"] []).db = [] := by
  exact ⟨by decide, by decide⟩

/-- C4 amended: on a date string that does not match the expected
pattern, extraction raises — and the exception aborts the entire feed,
not just that entry: `fetch_rss_feed` returns the error and yields no
entry at all, so the other entries of the same feed are neither
extracted nor stored (and the handler's catch-all then ends the run
with a 500). -/
theorem bad_date_raises_and_aborts_feed (e : RawEntry) (html ds : Str)
    (rest : List RawEntry)
    (hsd : e.summary_detail = some html)
    (hun : searchCap (str "Current Air Quality unavailable for") (str "<br")
        true html = none)
    (hdm : searchCap (str "<b>Current Air Quality:</b>") (str "<br")
        true html = some ds)
    (hbad : strptimeReport (stripTz (pyStrip ds)) = none) :
    extractEntry e = .error (.badReportDate (stripTz (pyStrip ds)))
    ∧ fetch_rss_feed (e :: rest)
        = .error (.badReportDate (stripTz (pyStrip ds))) := by
  have h1 : extractEntry e = .error (.badReportDate (stripTz (pyStrip ds))) := by
    simp [extractEntry, hsd, hun, hdm, reportDateOf, hbad]
  exact ⟨h1, by simp [fetch_rss_feed, h1]⟩

/-- Witness: `bad_date_raises_and_aborts_feed` on the concrete
bad-date entry followed by a good entry. -/
theorem bad_date_raises_and_aborts_feed_witness :
    extractEntry entryBadDate
        = .error (.badReportDate (stripTz (pyStrip (str "not a date"))))
    ∧ fetch_rss_feed [entryBadDate, entryGood]
        = .error (.badReportDate (stripTz (pyStrip (str "not a date")))) :=
  bad_date_raises_and_aborts_feed entryBadDate
    (str "<div><b>Location:</b> Springfield, IL</div><div><b>Current Air Quality:</b> not a date<br/></div>")
    (str "not a date") [entryGood] rfl (by decide) (by decide) (by decide)

/-! ## C5 — the unavailable early exit -/

/-- C5: when the detailed summary matches "Current Air Quality
unavailable for <location>" followed by a line break, extraction takes
the early-exit branch: the location is the captured text (the code
keeps no separate flag — taking this branch is what the spec's
`unavailable=true` denotes) and nothing else is derived: report date,
pollutant values and last update stay absent and the agency keeps its
default. -/
theorem extract_unavailable_early_exit (e : RawEntry) (html loc : Str)
    (hsd : e.summary_detail = some html)
    (hun : searchCap (str "Current Air Quality unavailable for") (str "<br")
        true html = some loc) :
    extractEntry e = .ok
      { title := e.title.getD (str "No title"),
        link := e.link.getD (str "No link"),
        location := loc, report_date := none, pm25 := none, pm10 := none,
        ozone := none, agency := str "No agency", last_update := none } := by
  simp [extractEntry, hsd, hun]

/-- A feed entry declaring unavailability, with the spec's sample
phrase. -/
def entryUnavailable : RawEntry :=
  { title := some (str "T"), link := some (str "L"), summary := none,
    summary_detail :=
      some (str "Current Air Quality unavailable for Springfield<br") }

/-- Witness: the spec's sample summary
"Current Air Quality unavailable for Springfield<br". -/
theorem extract_unavailable_early_exit_witness :
    extractEntry entryUnavailable =
      .ok { title := str "T", link := str "L",
            location := str "Springfield", report_date := none,
            pm25 := none, pm10 := none, ozone := none,
            agency := str "No agency", last_update := none } :=
  extract_unavailable_early_exit entryUnavailable _ (str "Springfield")
    rfl (by decide)

/-! ## C9 — entries without a detailed summary -/

/-- C9: for every raw entry without a detailed (markup) summary field,
extraction never raises and returns the all-defaults fields: title and
link pass through (with their "No title"/"No link" defaults when
absent), location "No location", agency "No agency", and report date,
pollutant values and last update absent. -/
theorem extract_no_markup_defaults (e : RawEntry)
    (h : e.summary_detail = none) :
    extractEntry e = .ok
      { title := e.title.getD (str "No title"),
        link := e.link.getD (str "No link"),
        location := str "No location", report_date := none, pm25 := none,
        pm10 := none, ozone := none, agency := str "No agency",
        last_update := none } := by
  simp [extractEntry, h]

/-- A feed entry carrying only a plain summary, no markup summary. -/
def entryPlain : RawEntry :=
  { title := none, link := none, summary := some (str "plain"),
    summary_detail := none }

/-- Witness: an entry carrying only a plain summary. -/
theorem extract_no_markup_defaults_witness :
    extractEntry entryPlain =
      .ok { title := str "No title", link := str "No link",
            location := str "No location", report_date := none,
            pm25 := none, pm10 := none, ozone := none,
            agency := str "No agency", last_update := none } :=
  extract_no_markup_defaults entryPlain rfl

/-! ## C6 — last-match-wins pollutant classification -/

/-- A match whose description the `if/elif` chain assigns to pm25. -/
def classifiesPm25 (m : AqiMatch) : Bool := containsSub sub25 m.desc

/-- A match whose description the `if/elif` chain assigns to pm10. -/
def classifiesPm10 (m : AqiMatch) : Bool :=
  !containsSub sub25 m.desc && containsSub sub10 m.desc

/-- A match whose description the `if/elif` chain assigns to ozone. -/
def classifiesOzone (m : AqiMatch) : Bool :=
  !containsSub sub25 m.desc && !containsSub sub10 m.desc
    && containsSub subOzone m.desc

/-- Splitting off the head of a filtered list under
`getLast?`-with-default. -/
theorem getLast?_elim_cons (p : AqiMatch → Bool) (m : AqiMatch)
    (l : List AqiMatch) (d : Option Nat) :
    ((List.filter p (m :: l)).getLast?).elim d (fun x => some x.aqi) =
      if p m then
        ((List.filter p l).getLast?).elim (some m.aqi) (fun x => some x.aqi)
      else ((List.filter p l).getLast?).elim d (fun x => some x.aqi) := by
  by_cases h : p m
  · rw [if_pos h, List.filter_cons, if_pos h]
    cases hfl : List.filter p l with
    | nil => simp
    | cons a as =>
      rw [List.getLast?_cons_cons]
      cases hgl : (a :: as).getLast? with
      | none => rw [List.getLast?_eq_none_iff] at hgl; exact absurd hgl (by simp)
      | some x => rfl
  · rw [if_neg h, List.filter_cons, if_neg h]

/-- The classification loop, from an arbitrary accumulator: each
component ends up as the last same-pollutant match's value, or keeps
the accumulator's value when there is none. -/
theorem classify_foldl (ms : List AqiMatch) :
    ∀ acc : Option Nat × Option Nat × Option Nat,
      ms.foldl classifyStep acc =
        (((ms.filter classifiesPm25).getLast?).elim acc.1 (fun m => some m.aqi),
         ((ms.filter classifiesPm10).getLast?).elim acc.2.1 (fun m => some m.aqi),
         ((ms.filter classifiesOzone).getLast?).elim acc.2.2 (fun m => some m.aqi)) := by
  induction ms with
  | nil => intro acc; simp
  | cons m ms ih =>
    intro acc
    rw [List.foldl_cons, ih]
    rcases acc with ⟨a1, a2, a3⟩
    rw [getLast?_elim_cons, getLast?_elim_cons, getLast?_elim_cons]
    by_cases h25 : containsSub sub25 m.desc
    · simp only [classifyStep, classifiesPm25, classifiesPm10,
        classifiesOzone, h25, Bool.not_true, Bool.false_and, Bool.and_self,
        if_true, if_false, Bool.false_eq_true, ite_true, ite_false]
    · by_cases h10 : containsSub sub10 m.desc
      · simp only [classifyStep, classifiesPm25, classifiesPm10,
          classifiesOzone, h25, h10, Bool.not_false, Bool.true_and,
          Bool.false_and, Bool.and_false, if_true, if_false,
          Bool.false_eq_true, ite_true, ite_false, Bool.not_true]
      · by_cases hoz : containsSub subOzone m.desc
        · simp only [classifyStep, classifiesPm25, classifiesPm10,
            classifiesOzone, h25, h10, hoz, Bool.not_false, Bool.true_and,
            Bool.and_true, if_true, if_false, Bool.false_eq_true, ite_true,
            ite_false, Bool.not_true]
        · simp only [classifyStep, classifiesPm25, classifiesPm10,
            classifiesOzone, h25, h10, hoz, Bool.not_false, Bool.true_and,
            Bool.and_false, if_true, if_false, Bool.false_eq_true, ite_true,
            ite_false, Bool.not_true]

/-- `Option.elim` with a `none` default is `Option.map`. -/
theorem elim_none_eq_map (o : Option AqiMatch) :
    o.elim (none : Option Nat) (fun m => some m.aqi) = o.map (fun m => m.aqi) := by
  cases o <;> rfl

/-- C6: pollutant extraction is last-match-wins.  For every detailed
summary, each AQI pattern match is classified by substring of its
description ("2.5 microns" to pm25, else "10 microns" to pm10, else
"Ozone" to ozone, anything else ignored), and each returned pollutant
value is the value of the *last* match classified to it; in particular
the spec's sample summary with ozone matches 45 then 30 yields
ozone = 30. -/
theorem aqi_last_match_wins (html : Str) :
    classifyMatches (findAqi html) =
      (((findAqi html).filter classifiesPm25).getLast?.map (fun m => m.aqi),
       ((findAqi html).filter classifiesPm10).getLast?.map (fun m => m.aqi),
       ((findAqi html).filter classifiesOzone).getLast?.map (fun m => m.aqi))
    ∧ classifyMatches (findAqi
        (str "Moderate - 45 AQI - Ozone<br/>Good - 30 AQI - Ozone<br/>"))
        = (none, none, some 30) := by
  constructor
  · rw [classifyMatches, classify_foldl]
    rw [elim_none_eq_map, elim_none_eq_map, elim_none_eq_map]
  · decide

/-! ## C8 — trend-direction classification -/

/-- A trend row with every pollutant value NULL at both endpoints. -/
def rowAllNone : TrendRow :=
  { start_pm25 := none, end_pm25 := none, start_pm10 := none,
    end_pm10 := none, start_ozone := none, end_ozone := none }

/-- C8 counterexample: when no change is present at all, each `all`
ranges over an empty sequence and is vacuously true, so the code
classifies the trend as "improving" — not "mixed" as the claim
requires for this case. -/
theorem trend_no_changes_improving_cex :
    trend_changes rowAllNone = (none, none, none)
    ∧ trend_direction (trend_changes rowAllNone) = "improving"
    ∧ trend_direction (trend_changes rowAllNone) ≠ "mixed" := by
  exact ⟨by decide, by decide, by decide⟩

/-- C8 amended: the direction is "improving" exactly when every present
change is negative — vacuously including the case where no change is
present —, "worsening" exactly when at least one change is present and
all present changes are positive, and "mixed" in every other case. -/
theorem trend_direction_classification (c1 c2 c3 : Option ℚ) :
    (trend_direction (c1, c2, c3) = "improving" ↔
      ∀ x ∈ presentChanges (c1, c2, c3), x < 0)
    ∧ (trend_direction (c1, c2, c3) = "worsening" ↔
      presentChanges (c1, c2, c3) ≠ []
        ∧ ∀ x ∈ presentChanges (c1, c2, c3), 0 < x)
    ∧ (trend_direction (c1, c2, c3) = "mixed" ↔
      (¬ ∀ x ∈ presentChanges (c1, c2, c3), x < 0)
        ∧ ¬ (presentChanges (c1, c2, c3) ≠ []
              ∧ ∀ x ∈ presentChanges (c1, c2, c3), 0 < x)) := by
  have hA : ((presentChanges (c1, c2, c3)).all fun x => decide (x < 0)) = true
      ↔ ∀ x ∈ presentChanges (c1, c2, c3), x < 0 := by
    simp [List.all_eq_true]
  have hB : ((presentChanges (c1, c2, c3)).all fun x => decide (0 < x)) = true
      ↔ ∀ x ∈ presentChanges (c1, c2, c3), 0 < x := by
    simp [List.all_eq_true]
  by_cases ha : ((presentChanges (c1, c2, c3)).all fun x => decide (x < 0)) = true
  · have hdir : trend_direction (c1, c2, c3) = "improving" := by
      unfold trend_direction; rw [if_pos ha]
    refine ⟨iff_of_true hdir (hA.mp ha), ?_, ?_⟩
    · refine iff_of_false (by rw [hdir]; decide) ?_
      rintro ⟨hne, hpos⟩
      cases hl : presentChanges (c1, c2, c3) with
      | nil => exact hne hl
      | cons x xs =>
        have h1 : x < 0 := (hA.mp ha) x (by rw [hl]; exact List.mem_cons_self x xs)
        have h2 : (0 : ℚ) < x := hpos x (by rw [hl]; exact List.mem_cons_self x xs)
        exact absurd h1 (not_lt_of_gt h2)
    · exact iff_of_false (by rw [hdir]; decide) (fun h => h.1 (hA.mp ha))
  · by_cases hb : ((presentChanges (c1, c2, c3)).all fun x => decide (0 < x)) = true
    · have hdir : trend_direction (c1, c2, c3) = "worsening" := by
        unfold trend_direction; rw [if_neg ha, if_pos hb]
      have hne : presentChanges (c1, c2, c3) ≠ [] := by
        intro h
        apply ha
        apply hA.mpr
        intro x hx
        rw [h] at hx
        exact absurd hx (List.not_mem_nil x)
      exact ⟨iff_of_false (by rw [hdir]; decide) (fun h => ha (hA.mpr h)),
             iff_of_true hdir ⟨hne, hB.mp hb⟩,
             iff_of_false (by rw [hdir]; decide)
               (fun h => h.2 ⟨hne, hB.mp hb⟩)⟩
    · have hdir : trend_direction (c1, c2, c3) = "mixed" := by
        unfold trend_direction; rw [if_neg ha, if_neg hb]
      exact ⟨iff_of_false (by rw [hdir]; decide) (fun h => ha (hA.mpr h)),
             iff_of_false (by rw [hdir]; decide) (fun h => hb (hB.mpr h.2)),
             iff_of_true hdir
               ⟨fun h => ha (hA.mpr h), fun h => hb (hB.mpr h.2)⟩⟩

/-- Witness: the spec's trend example — pm25 and pm10 changes both
positive (+100% and +50%) with the ozone change absent classifies as
"worsening". -/
theorem trend_direction_classification_witness :
    trend_direction (some (100 : ℚ), some 50, none) = "worsening" :=
  (trend_direction_classification (some 100) (some 50) none).2.1.mpr
    ⟨by simp [presentChanges], by simp [presentChanges]⟩

/-! ## C10 — no division by zero in percent changes -/

/-- C10: `calculate_change` cannot divide by zero: when the start value
is 0 or either endpoint is absent, the change is `None` rather than
computed (so a pollutant rising from 0 is simply excluded from the
direction classification); and whenever a change *is* computed, its
start endpoint is present and non-zero. -/
theorem calculate_change_guard (s e : Option Int) :
    ((s = some 0 ∨ s = none ∨ e = none) → calculate_change s e = none)
    ∧ (∀ q : ℚ, calculate_change s e = some q →
        ∃ sv ev : Int, s = some sv ∧ e = some ev ∧ sv ≠ 0
          ∧ q = roundTo2 (((ev : ℚ) - (sv : ℚ)) / (sv : ℚ) * 100)) := by
  constructor
  · rintro (rfl | rfl | rfl) <;> simp [calculate_change, truthy]
  · intro q hq
    cases s with
    | none => simp [calculate_change, truthy] at hq
    | some sv =>
      cases e with
      | none => simp [calculate_change, truthy] at hq
      | some ev =>
        by_cases hs : sv = 0
        · simp [calculate_change, truthy, hs] at hq
        · by_cases he : ev = 0
          · simp [calculate_change, truthy, he] at hq
          · refine ⟨sv, ev, rfl, rfl, hs, ?_⟩
            simp [calculate_change, truthy, hs, he] at hq
            exact hq.symm

/-- Witness: a pollutant rising from 0 yields no change value. -/
theorem calculate_change_guard_witness :
    calculate_change (some 0) (some 5) = none :=
  (calculate_change_guard (some 0) (some 5)).1 (Or.inl rfl)

end WAQ
